import Mathlib

/-!
Verification of the MAESTRO `Multiome_BarcodeMap.py` barcode-reconciliation
pipeline (function `barcodemap`, src/MAESTRO/Multiome_BarcodeMap.py).

The pipeline is embedded from the point where both count matrices, their
feature lists and their barcode lists have been loaded (the loaders
`read_count`, `read_10X_h5`, `read_10X_mtx` live outside this repository):
the embedding covers lines 145-184 of the source, plus the h5-branch peak
feature normalization of lines 118-120.

Modelling notes, faithful to the source:
- `dict(zip(ks, vs))` truncates to the shorter list and later pairs
  overwrite earlier ones; lookup of an absent key raises `KeyError`.
  At lines 160-161 the source writes the names `atac` and `rna` for the two
  library lists it has just read into `atac_barcode_lib_list` and
  `rna_barcode_lib_list`; the embedding uses those library lists.
- `list(set(xs) & set(ys))` has unspecified iteration order in Python; the
  embedding fixes a canonical order (`List.dedup` of the left operand,
  filtered by membership in the right).  Every property proved below about
  this list is order-independent.
- `list.index` raises `ValueError` when the element is absent; matrix fancy
  row indexing `m[idx, :]` raises on an out-of-range index; `np.vstack`
  raises when the column counts disagree.  Failures are modelled with
  `Except`.
- Matrices are lists of rows of integers and are rectangular in every use
  below; the loaded matrices have features as rows and cells as columns
  (per the help text of the source for `--peakcount`: "Peak count matrix with peaks
  as rows and cells as columns").
- Python byte strings and text strings are both modelled as `String`
  (encode/decode are inverse round trips on the ASCII data involved).
- The statement `passed_genes = np.array(feature)[passed_gene.tolist()[0]]`
  at line 176 references names never defined anywhere in the source (a dead
  defective statement whose value is also never used); it is omitted.
-/

/-- Kinds of runtime failure the pipeline can raise. `keyError` embeds a
Python `KeyError` from an unguarded dict lookup, `valueError` a
`list.index` miss, `indexError` an out-of-range fancy row index, and
`shapeError` an `np.vstack` column-count mismatch. -/
inductive PyErr : Type
  | keyError (key : String)
  | valueError (val : String)
  | indexError
  | shapeError

/-- Lookup in `dict(zip(ks, vs))`: pairs beyond the shorter list are dropped
(zip truncation) and a later pair for the same key overwrites an earlier
one, so the recursion prefers the answer found deeper in the lists.
Embeds the dictionaries built at source lines 160-161. -/
def dget : List String → List String → String → Option String
  | k :: ks, v :: vs, q =>
    match dget ks vs q with
    | some r => some r
    | none => if q = k then some v else none
  | _, _, _ => none

/-- Translate every barcode of a list through a dict lookup; an absent key
aborts with `KeyError` naming that barcode, exactly as the unguarded
comprehension `[d[i] for i in barcodes]` does at source lines 164 and 169. -/
def translateAll (d : String → Option String) : List String → Except PyErr (List String)
  | [] => Except.ok []
  | b :: bs =>
    match d b with
    | none => Except.error (PyErr.keyError b)
    | some r =>
      match translateAll d bs with
      | Except.error e => Except.error e
      | Except.ok rs => Except.ok (r :: rs)

/-- Canonical-order embedding of `list(set(xs) & set(ys))` (source lines
165 and 170): the distinct elements of `xs` that also occur in `ys`. -/
def interList (xs ys : List String) : List String :=
  xs.dedup.filter fun x => decide (x ∈ ys)

/-- Position of the first occurrence of `x` in `l`; meaningful when
`x ∈ l`, matching Python `l.index(x)` on present elements. -/
def posOf : List String → String → Nat
  | [], _ => 0
  | y :: ys, x => if x = y then 0 else posOf ys x + 1

/-- Embeds `[overlapped.index(i) for i in bs]` (source lines 166-167 and
171-172): `list.index` raises `ValueError` at the first barcode absent from
`ov`. -/
def indexAll (ov : List String) : List String → Except PyErr (List Nat)
  | [] => Except.ok []
  | b :: bs =>
    if b ∈ ov then
      match indexAll ov bs with
      | Except.error e => Except.error e
      | Except.ok ns => Except.ok (posOf ov b :: ns)
    else Except.error (PyErr.valueError b)

/-- Embeds fancy row selection `m[np.array(idx), :]` (source lines
174-175): pick the listed rows, failing on an out-of-range index. -/
def rowSelect (m : List (List Int)) : List Nat → Except PyErr (List (List Int))
  | [] => Except.ok []
  | i :: is =>
    match m.get? i with
    | none => Except.error PyErr.indexError
    | some r =>
      match rowSelect m is with
      | Except.error e => Except.error e
      | Except.ok rs => Except.ok (r :: rs)

/-- Column count of a list-of-rows matrix (rows are uniform in every use
below, per the loader invariant of rectangular matrices). -/
def rowWidth : List (List Int) → Nat
  | [] => 0
  | r :: _ => r.length

/-- Embeds `np.vstack((a, b))` (source line 178) on rectangular arrays:
row concatenation, failing when the column counts disagree. -/
def vstack (a b : List (List Int)) : Except PyErr (List (List Int)) :=
  if a = [] ∨ b = [] then Except.ok (a ++ b)
  else if rowWidth a = rowWidth b then Except.ok (a ++ b)
  else Except.error PyErr.shapeError

/-- Word characters of the regex `\w` on the ASCII data involved:
letters, digits and underscore. -/
def isWordChar (c : Char) : Bool := c.isAlphanum || c = '_'

/-- Character-by-character embedding of `re.sub` with pattern `\W` and
replacement underscore (source line 119): each non-word character is
replaced by an underscore. -/
def subNonWord : List Char → List Char
  | [] => []
  | c :: cs => (if isWordChar c then c else '_') :: subNonWord cs

/-- Normalization applied to each decoded peak feature identifier in the
h5 branch (source line 119). -/
def normalizeFeature (s : String) : String := String.mk (subNonWord s.data)

/-- Transformation applied by the h5 branch to the decoded peak feature list
(source lines 119-120; the re-encoding to bytes is the identity in this
model). -/
def h5AtacFeatures (names : List String) : List String := names.map normalizeFeature

/-- Input state of the pipeline once both matrices and the two barcode
library files have been loaded (source lines 92-158). -/
structure BmInput where
  atacLib : List String
  rnaLib : List String
  peakmatrix : List (List Int)
  atacFeatures : List String
  atacBarcodes : List String
  genematrix : List (List Int)
  rnaFeatures : List String
  rnaBarcodes : List String
  rnaToAtac : Bool
  directory : String
  outpfx : String
  species : String

/-- One `write_10X_h5` call (source lines 181-182): the file name and the
arguments handed to the external writer. -/
structure OutFile where
  filename : String
  matrix : List (List Int)
  features : List String
  barcodes : List String
  genome : String
  datatype : String

/-- The `write_10X_h5_multiome` call (source lines 183-184): the file name
and the arguments handed to the external dual-modality writer. -/
structure MultiomeFile where
  filename : String
  rnaMatrix : List (List Int)
  rnaFeatures : List String
  barcodes : List String
  atacMatrix : List (List Int)
  atacFeatures : List String
  genome : String
  datatype : String

/-- Everything the pipeline computes after the branch on `rna_to_atac`
(source lines 163-184). -/
structure BmResult where
  overlapped : List String
  rnaIdx : List Nat
  atacIdx : List Nat
  genematrixFiltered : List (List Int)
  peakmatrixFiltered : List (List Int)
  allFeatureMatrix : List (List Int)
  allFeatures : List String
  geneFile : OutFile
  peakFile : OutFile
  featureFile : MultiomeFile

/-- The branch on the `rna_to_atac` flag (source lines 163-172): translate
the observed barcodes of one modality, intersect with the observed
barcodes of the other, and compute both position-index lists against the
overlap list.  Returns `(overlapped, rna_barcode_idx, atac_barcode_idx)`.
The evaluation order of the source is kept: in the flag branch
`rna_barcode_idx` (line 166) is computed before `atac_barcode_idx`
(line 167), in the default branch `atac_barcode_idx` (line 171) before
`rna_barcode_idx` (line 172). -/
def bmIndices (inp : BmInput) : Except PyErr (List String × List Nat × List Nat) :=
  if inp.rnaToAtac then
    match translateAll (dget inp.rnaLib inp.atacLib) inp.rnaBarcodes with
    | Except.error e => Except.error e
    | Except.ok rnaAtacBarcodes =>
      match indexAll (interList rnaAtacBarcodes inp.atacBarcodes)
          (interList rnaAtacBarcodes inp.atacBarcodes) with
      | Except.error e => Except.error e
      | Except.ok rnaIdx =>
        match indexAll (interList rnaAtacBarcodes inp.atacBarcodes) inp.atacBarcodes with
        | Except.error e => Except.error e
        | Except.ok atacIdx =>
          Except.ok (interList rnaAtacBarcodes inp.atacBarcodes, rnaIdx, atacIdx)
  else
    match translateAll (dget inp.atacLib inp.rnaLib) inp.atacBarcodes with
    | Except.error e => Except.error e
    | Except.ok atacRnaBarcodes =>
      match indexAll (interList atacRnaBarcodes inp.rnaBarcodes) atacRnaBarcodes with
      | Except.error e => Except.error e
      | Except.ok atacIdx =>
        match indexAll (interList atacRnaBarcodes inp.rnaBarcodes) inp.rnaBarcodes with
        | Except.error e => Except.error e
        | Except.ok rnaIdx =>
          Except.ok (interList atacRnaBarcodes inp.rnaBarcodes, rnaIdx, atacIdx)

/-- The whole pipeline from source lines 160-184: index computation, row
selection of both matrices, vertical stacking, and the three write calls.
The file names are built exactly as in the source, by prepending only the
output prefix (the created output directory is never joined in). -/
def barcodemap (inp : BmInput) : Except PyErr BmResult :=
  match bmIndices inp with
  | Except.error e => Except.error e
  | Except.ok (overlapped, rnaIdx, atacIdx) =>
    match rowSelect inp.genematrix rnaIdx with
    | Except.error e => Except.error e
    | Except.ok genematrixFiltered =>
      match rowSelect inp.peakmatrix atacIdx with
      | Except.error e => Except.error e
      | Except.ok peakmatrixFiltered =>
        match vstack genematrixFiltered peakmatrixFiltered with
        | Except.error e => Except.error e
        | Except.ok allFeatureMatrix =>
          Except.ok
            { overlapped := overlapped
              rnaIdx := rnaIdx
              atacIdx := atacIdx
              genematrixFiltered := genematrixFiltered
              peakmatrixFiltered := peakmatrixFiltered
              allFeatureMatrix := allFeatureMatrix
              allFeatures := inp.rnaFeatures ++ inp.atacFeatures
              geneFile :=
                { filename := inp.outpfx ++ "_multiome_gene_count.h5"
                  matrix := genematrixFiltered
                  features := inp.rnaFeatures
                  barcodes := overlapped
                  genome := inp.species
                  datatype := "Gene" }
              peakFile :=
                { filename := inp.outpfx ++ "_multiome_peak_count.h5"
                  matrix := peakmatrixFiltered
                  features := inp.atacFeatures
                  barcodes := overlapped
                  genome := inp.species
                  datatype := "Peak" }
              featureFile :=
                { filename := inp.outpfx ++ "_multiome_feature_count.h5"
                  rnaMatrix := genematrixFiltered
                  rnaFeatures := inp.rnaFeatures
                  barcodes := overlapped
                  atacMatrix := peakmatrixFiltered
                  atacFeatures := inp.atacFeatures
                  genome := inp.species
                  datatype := "Multiome" } }

/-- Concrete run for claim C1: the column-alignment example of the spec, default
direction, ATAC barcodes A1 A2 A3, RNA barcodes R1 R2, library pairs
(A1,R1) (A2,R2) (A3,R9). -/
def inpC1 : BmInput :=
  ⟨["A1", "A2", "A3"], ["R1", "R2", "R9"], [[1, 0, 2]], ["p1"],
   ["A1", "A2", "A3"], [[3, 4]], ["g1"], ["R1", "R2"],
   false, "MAESTRO", "MAESTRO", "GRCh38"⟩

/-- Concrete run for claim C2: empty barcode libraries, so the observed
ATAC barcode A1 has no entry in the translation map. -/
def inpC2 : BmInput :=
  ⟨[], [], [[1]], ["p1"], ["A1"], [[2]], ["g1"], ["R1"],
   false, "MAESTRO", "MAESTRO", "GRCh38"⟩

/-- Concrete run for claim C3: a succeeding run with output directory
"outdir" and output prefix "res". -/
def inpC3 : BmInput :=
  ⟨["A1"], ["R1"], [[5]], ["p1"], ["A1"], [[7]], ["g1"], ["R1"],
   false, "outdir", "res", "GRCh38"⟩

/-- Concrete run for claim C4: two gene features over one cell and one peak
feature over one cell, libraries pairing A1 with R1. -/
def inpC4 : BmInput :=
  ⟨["A1"], ["R1"], [[5]], ["p1"], ["A1"], [[3], [4]], ["g1", "g2"], ["R1"],
   false, "MAESTRO", "MAESTRO", "GRCh38"⟩

/-- Concrete run for claim C6: barcode library files of mismatched length
(two ATAC entries, one RNA entry). -/
def inpC6 : BmInput :=
  ⟨["A1", "A2"], ["R1"], [[1]], ["p1"], ["A1"], [[2]], ["g1"], ["R1"],
   false, "MAESTRO", "MAESTRO", "GRCh38"⟩

/-- Concrete run for claim C10: the rna-to-atac direction on a one-cell
input. -/
def inpC10 : BmInput :=
  ⟨["A1"], ["R1"], [[5]], ["p1"], ["A1"], [[7]], ["g1"], ["R1"],
   true, "MAESTRO", "MAESTRO", "GRCh38"⟩

/-- C1: the column-alignment example of the spec for the default direction.  The
overlapping set is computed as the claim states, but the pipeline then
aborts: the source indexes every translated ATAC barcode (including R9,
which is outside the overlap) into the overlap list, so `list.index`
raises `ValueError` instead of filtering the peak matrix to A1 and A2 and
the gene matrix to R1 and R2. -/
theorem c1_column_alignment_failure :
    interList ["R1", "R2", "R9"] ["R1", "R2"] = ["R1", "R2"] ∧
    barcodemap inpC1 = Except.error (PyErr.valueError "R9") :=
  ⟨rfl, rfl⟩

/-- C2: an observed ATAC barcode absent from the translation map aborts
the run with a plain undefined-key failure (`KeyError`) from the unguarded
dict lookup, not with a guarded, descriptive Unmapped Barcode error. -/
theorem c2_unmapped_barcode_keyerror :
    barcodemap inpC2 = Except.error (PyErr.keyError "A1") :=
  rfl

/-- C3: on a succeeding run with directory "outdir" and prefix "res", the
three output files carry the claimed datatype labels and genome tag, but
their names are built from the prefix alone — the configured output
directory is never joined into the paths. -/
theorem c3_output_files_ignore_directory :
    (barcodemap inpC3).toOption.map
        (fun r => (r.geneFile.filename, r.peakFile.filename, r.featureFile.filename)) =
      some ("res_multiome_gene_count.h5", "res_multiome_peak_count.h5",
        "res_multiome_feature_count.h5") ∧
    (barcodemap inpC3).toOption.map
        (fun r => (r.geneFile.genome, r.geneFile.datatype, r.peakFile.datatype,
          r.featureFile.datatype)) =
      some ("GRCh38", "Gene", "Peak", "Multiome") :=
  ⟨rfl, rfl⟩

/-- C4: on a succeeding run with two gene features and one peak feature
over one shared cell, the stacked matrix has 2 rows (the source filters
matrix rows by barcode indices), while the gene feature count plus the
peak feature count is 3 — the claimed row count does not hold. -/
theorem c4_stacking_shape_mismatch :
    (barcodemap inpC4).toOption.map
        (fun r => (r.allFeatureMatrix.length, r.overlapped.length)) = some (2, 1) ∧
    inpC4.rnaFeatures.length + inpC4.atacFeatures.length = 3 :=
  ⟨rfl, rfl⟩

/-- C6: with barcode library files of mismatched length (two ATAC entries,
one RNA entry) the translation map is silently built from the truncated
zip — A1 is mapped, A2 is dropped — and the pipeline completes
successfully instead of failing with a Malformed Input error at
construction time. -/
theorem c6_mismatched_libs_no_error :
    inpC6.atacLib.length = 2 ∧ inpC6.rnaLib.length = 1 ∧
    dget inpC6.atacLib inpC6.rnaLib "A1" = some "R1" ∧
    dget inpC6.atacLib inpC6.rnaLib "A2" = none ∧
    (barcodemap inpC6).toOption.isSome = true :=
  ⟨rfl, rfl, rfl, rfl, rfl⟩

lemma dget_mem_of_some (ks : List String) : ∀ (vs : List String) (q r : String),
    dget ks vs q = some r → q ∈ ks := by
  induction ks with
  | nil => intro vs q r h; simp [dget] at h
  | cons k ks ih =>
    intro vs q r h
    cases vs with
    | nil => simp [dget] at h
    | cons v vs =>
      simp only [dget] at h
      cases hrec : dget ks vs q with
      | some r2 => exact List.mem_cons_of_mem k (ih vs q r2 hrec)
      | none =>
        rw [hrec] at h
        by_cases hq : q = k
        · exact hq ▸ List.mem_cons_self k ks
        · simp [hq] at h

lemma dget_eq_none_of_not_mem {ks vs : List String} {q : String}
    (h : q ∉ ks) : dget ks vs q = none := by
  cases hd : dget ks vs q with
  | none => rfl
  | some r => exact absurd (dget_mem_of_some ks vs q r hd) h

lemma dget_isSome_of_mem (ks : List String) : ∀ (vs : List String),
    ks.length = vs.length → ∀ q ∈ ks, (dget ks vs q).isSome := by
  induction ks with
  | nil => intro vs _ q hq; cases hq
  | cons k ks ih =>
    intro vs hlen q hq
    cases vs with
    | nil => simp at hlen
    | cons v vs =>
      have hlen2 : ks.length = vs.length := by simpa using hlen
      simp only [dget]
      cases hrec : dget ks vs q with
      | some r => rfl
      | none =>
        rcases List.mem_cons.mp hq with rfl | hmem
        · simp
        · have hs := ih vs hlen2 q hmem
          rw [hrec] at hs
          simp at hs

lemma dget_cons_some {ks vs : List String} {q r : String} (k v : String)
    (h : dget ks vs q = some r) : dget (k :: ks) (v :: vs) q = some r := by
  simp only [dget]
  rw [h]

lemma dget_cons_none {ks vs : List String} {q : String} (k v : String)
    (h : dget ks vs q = none) :
    dget (k :: ks) (v :: vs) q = if q = k then some v else none := by
  simp only [dget]
  rw [h]

lemma dget_roundtrip (ks : List String) : ∀ (vs : List String),
    ks.length = vs.length → vs.Nodup →
    ∀ b ∈ ks, (dget ks vs b).bind (dget vs ks) = some b := by
  induction ks with
  | nil => intro vs _ _ b hb; cases hb
  | cons k ks ih =>
    intro vs hlen hnd b hb
    cases vs with
    | nil => simp at hlen
    | cons v vs =>
      have hlen2 : ks.length = vs.length := by simpa using hlen
      have hv : v ∉ vs := (List.nodup_cons.mp hnd).1
      have hnd2 : vs.Nodup := (List.nodup_cons.mp hnd).2
      cases h1 : dget ks vs b with
      | some r =>
        have hmem : b ∈ ks := dget_mem_of_some ks vs b r h1
        have hih := ih vs hlen2 hnd2 b hmem
        rw [h1, Option.some_bind] at hih
        rw [dget_cons_some k v h1, Option.some_bind, dget_cons_some v k hih]
      | none =>
        by_cases hq : b = k
        · rw [dget_cons_none k v h1, if_pos hq, Option.some_bind,
            dget_cons_none v k (dget_eq_none_of_not_mem hv), if_pos rfl, hq]
        · rcases List.mem_cons.mp hb with rfl | hmem
          · exact absurd rfl hq
          · have hs := dget_isSome_of_mem ks vs hlen2 b hmem
            rw [h1] at hs
            simp at hs

/-- C5 counterexample: with duplicate RNA-library entries the positionally
zipped dictionaries are not mutually inverse — A1 is in the ATAC library,
yet translating A1 ATAC-to-RNA gives R0 and translating R0 back gives A2,
not A1. -/
theorem c5_roundtrip_counterexample :
    "A1" ∈ (["A1", "A2"] : List String) ∧
    (dget ["A1", "A2"] ["R0", "R0"] "A1").bind (dget ["R0", "R0"] ["A1", "A2"]) =
      some "A2" ∧
    ("A2" : String) ≠ "A1" :=
  ⟨by decide, rfl, by decide⟩

/-- C5 (amended): when the two barcode library lists have equal length and
the RNA library entries are pairwise distinct, translating any barcode of
the ATAC library through the ATAC-to-RNA dictionary and then through the
RNA-to-ATAC dictionary returns it unchanged. -/
theorem c5_roundtrip_amended (ks vs : List String) (hlen : ks.length = vs.length)
    (hnd : vs.Nodup) (b : String) (hb : b ∈ ks) :
    (dget ks vs b).bind (dget vs ks) = some b :=
  dget_roundtrip ks vs hlen hnd b hb

/-- Witness for the amended C5 on a concrete two-entry library. -/
theorem c5_roundtrip_amended_witness :
    (["A1", "A2"] : List String).length = (["R1", "R2"] : List String).length ∧
    (["R1", "R2"] : List String).Nodup ∧
    (dget ["A1", "A2"] ["R1", "R2"] "A2").bind (dget ["R1", "R2"] ["A1", "A2"]) =
      some "A2" :=
  ⟨by decide, by decide,
    c5_roundtrip_amended ["A1", "A2"] ["R1", "R2"] (by decide) (by decide) "A2" (by decide)⟩

lemma subNonWord_eq_map (cs : List Char) :
    subNonWord cs = cs.map fun c => if isWordChar c then c else '_' := by
  induction cs with
  | nil => rfl
  | cons c cs ih => simp [subNonWord, ih]

/-- C7: the h5-branch peak feature normalization replaces exactly the
non-word characters of the decoded identifier by underscores, position by
position, and in particular normalizes the colon-and-dash identifier of
the example identifier of the spec to its underscore form before it is used as a row
identifier. -/
theorem c7_peak_normalization :
    (∀ s : String, normalizeFeature s =
      String.mk (s.data.map fun c => if isWordChar c then c else '_')) ∧
    h5AtacFeatures ["chr10:100020591-100020841"] = ["chr10_100020591_100020841"] := by
  refine ⟨fun s => ?_, rfl⟩
  rw [normalizeFeature, subNonWord_eq_map]

lemma translateAll_ok_length (d : String → Option String) (bs : List String) :
    ∀ tr, translateAll d bs = Except.ok tr → tr.length = bs.length := by
  induction bs with
  | nil =>
    intro tr h
    simp only [translateAll] at h
    cases h
    rfl
  | cons b bs ih =>
    intro tr h
    simp only [translateAll] at h
    cases hd : d b with
    | none => rw [hd] at h; cases h
    | some r =>
      rw [hd] at h
      cases hrec : translateAll d bs with
      | error e => rw [hrec] at h; simp at h
      | ok rs =>
        rw [hrec] at h
        simp only at h
        cases h
        simp [ih rs hrec]

lemma interList_nodup (xs ys : List String) : (interList xs ys).Nodup :=
  (List.nodup_dedup xs).filter _

lemma mem_interList {a : String} {xs ys : List String} :
    a ∈ interList xs ys ↔ a ∈ xs ∧ a ∈ ys := by
  simp [interList, List.mem_filter, List.mem_dedup]

lemma length_le_of_nodup_subset {l m : List String} (hnd : l.Nodup)
    (hsub : ∀ a ∈ l, a ∈ m) : l.length ≤ m.length := by
  calc l.length = l.toFinset.card := by rw [List.toFinset_card_of_nodup hnd]
    _ ≤ m.toFinset.card := Finset.card_le_card fun a ha => by
        rw [List.mem_toFinset] at ha ⊢
        exact hsub a ha
    _ ≤ m.length := List.toFinset_card_le m

lemma interList_length_le_left (xs ys : List String) :
    (interList xs ys).length ≤ xs.length :=
  le_trans (List.length_filter_le _ _) (List.Sublist.length_le (List.dedup_sublist xs))

lemma interList_length_le_right (xs ys : List String) :
    (interList xs ys).length ≤ ys.length :=
  length_le_of_nodup_subset (interList_nodup xs ys) fun _a ha => (mem_interList.mp ha).2

/-- C8: whenever the overlapping barcode list is computed (the translation
comprehension of the chosen direction succeeded on the observed barcodes),
its size is at most the minimum of the observed ATAC and RNA barcode-list
lengths; both branch directions are covered. -/
theorem c8_overlap_bound (da dr : String → Option String)
    (atacBarcodes rnaBarcodes trA trR : List String)
    (hA : translateAll da atacBarcodes = Except.ok trA)
    (hR : translateAll dr rnaBarcodes = Except.ok trR) :
    (interList trA rnaBarcodes).length ≤ min atacBarcodes.length rnaBarcodes.length ∧
    (interList trR atacBarcodes).length ≤ min atacBarcodes.length rnaBarcodes.length := by
  constructor
  · refine le_min ?_ (interList_length_le_right _ _)
    rw [← translateAll_ok_length da atacBarcodes trA hA]
    exact interList_length_le_left _ _
  · refine le_min (interList_length_le_right _ _) ?_
    rw [← translateAll_ok_length dr rnaBarcodes trR hR]
    exact interList_length_le_left _ _

/-- Witness for C8 on a concrete one-barcode run in each direction. -/
theorem c8_overlap_bound_witness :
    translateAll (dget ["A1"] ["R1"]) ["A1"] = Except.ok ["R1"] ∧
    translateAll (dget ["R1"] ["A1"]) ["R1"] = Except.ok ["A1"] ∧
    (interList ["R1"] ["R1"]).length ≤ min 1 1 :=
  ⟨rfl, rfl,
    (c8_overlap_bound (dget ["A1"] ["R1"]) (dget ["R1"] ["A1"])
      ["A1"] ["R1"] ["R1"] ["A1"] rfl rfl).1⟩

lemma indexAll_ok_iff (ov bs : List String) :
    (∃ ns, indexAll ov bs = Except.ok ns) ↔ ∀ b ∈ bs, b ∈ ov := by
  induction bs with
  | nil =>
    constructor
    · intro _ b hb
      cases hb
    · intro _
      exact ⟨[], rfl⟩
  | cons b bs ih =>
    constructor
    · rintro ⟨ns, hns⟩ c hc
      by_cases hb : b ∈ ov
      · rcases List.mem_cons.mp hc with rfl | hcs
        · exact hb
        · refine (ih.mp ?_) c hcs
          simp only [indexAll, if_pos hb] at hns
          cases hrec : indexAll ov bs with
          | error e => rw [hrec] at hns; simp at hns
          | ok ms => exact ⟨ms, rfl⟩
      · simp only [indexAll, if_neg hb] at hns
        cases hns
    · intro h
      have hb : b ∈ ov := h b (List.mem_cons_self b bs)
      obtain ⟨ns, hns⟩ := ih.mpr fun c hc => h c (List.mem_cons_of_mem b hc)
      refine ⟨posOf ov b :: ns, ?_⟩
      simp only [indexAll, if_pos hb]
      rw [hns]

/-- C9: in the default direction, the two position-index comprehensions of
the source both succeed precisely when every translated ATAC barcode and
every observed RNA barcode lies in the overlap list — equivalently, when
the translated ATAC barcodes and the observed RNA barcodes have exactly
the same members; any observed barcode outside the intersection makes the
position lookup fail instead of being filtered out. -/
theorem c9_index_requires_set_equality (atacRnaBarcodes rnaBarcodes : List String) :
    ((∃ ai, indexAll (interList atacRnaBarcodes rnaBarcodes) atacRnaBarcodes =
        Except.ok ai) ∧
      (∃ ri, indexAll (interList atacRnaBarcodes rnaBarcodes) rnaBarcodes =
        Except.ok ri)) ↔
    (∀ b, b ∈ atacRnaBarcodes ↔ b ∈ rnaBarcodes) := by
  rw [indexAll_ok_iff, indexAll_ok_iff]
  constructor
  · rintro ⟨h1, h2⟩ b
    exact ⟨fun hb => (mem_interList.mp (h1 b hb)).2,
      fun hb => (mem_interList.mp (h2 b hb)).1⟩
  · intro h
    exact ⟨fun b hb => mem_interList.mpr ⟨hb, (h b).mp hb⟩,
      fun b hb => mem_interList.mpr ⟨(h b).mpr hb, hb⟩⟩

lemma posOf_cons_self (x : String) (l : List String) : posOf (x :: l) x = 0 := by
  simp [posOf]

lemma posOf_cons_ne {x y : String} (l : List String) (h : x ≠ y) :
    posOf (y :: l) x = posOf l x + 1 := by
  simp [posOf, h]

lemma map_posOf_self {l : List String} (h : l.Nodup) :
    l.map (posOf l) = List.range l.length := by
  induction l with
  | nil => rfl
  | cons x xs ih =>
    have hx : x ∉ xs := (List.nodup_cons.mp h).1
    have hnd : xs.Nodup := (List.nodup_cons.mp h).2
    have hmap : xs.map (posOf (x :: xs)) = (xs.map (posOf xs)).map (fun n => n + 1) := by
      rw [List.map_map]
      refine List.map_congr_left fun a ha => ?_
      have hax : a ≠ x := fun he => hx (he ▸ ha)
      simp [Function.comp, posOf_cons_ne xs hax]
    calc (x :: xs).map (posOf (x :: xs))
        = posOf (x :: xs) x :: xs.map (posOf (x :: xs)) := rfl
      _ = 0 :: (xs.map (posOf xs)).map (fun n => n + 1) := by
          rw [posOf_cons_self, hmap]
      _ = 0 :: (List.range xs.length).map (fun n => n + 1) := by rw [ih hnd]
      _ = List.range (xs.length + 1) := by
          rw [List.range_succ_eq_map]
      _ = List.range (x :: xs).length := rfl

lemma indexAll_eq_map {ov bs : List String} (h : ∀ b ∈ bs, b ∈ ov) :
    indexAll ov bs = Except.ok (bs.map (posOf ov)) := by
  induction bs with
  | nil => rfl
  | cons b bs ih =>
    have hb : b ∈ ov := h b (List.mem_cons_self b bs)
    simp only [indexAll, if_pos hb]
    rw [ih fun c hc => h c (List.mem_cons_of_mem b hc)]
    rfl

lemma indexAll_self {l : List String} (h : l.Nodup) :
    indexAll l l = Except.ok (List.range l.length) := by
  rw [indexAll_eq_map fun b hb => hb, map_posOf_self h]

/-- C10: when the rna-to-atac flag is set, the RNA-side index list computed
by the pipeline is the identity sequence over the overlap size — the
source indexes the overlap list into itself — so the gene matrix is always
filtered by the first n row indices, independent of where the overlapping
barcodes occur in the observed RNA barcode list. -/
theorem c10_rna_idx_identity (inp : BmInput) (ov : List String)
    (rIdx aIdx : List Nat) (hdir : inp.rnaToAtac = true)
    (hok : bmIndices inp = Except.ok (ov, rIdx, aIdx)) :
    rIdx = List.range ov.length := by
  unfold bmIndices at hok
  rw [if_pos hdir] at hok
  split at hok
  · exact Except.noConfusion hok
  · next rab htr =>
    split at hok
    · exact Except.noConfusion hok
    · next rIdx0 hridx =>
      split at hok
      · exact Except.noConfusion hok
      · next aIdx0 haidx =>
        cases hok
        have hself := indexAll_self (interList_nodup rab inp.atacBarcodes)
        rw [hridx] at hself
        exact Except.ok.inj hself

/-- Witness for C10 on a concrete one-cell rna-to-atac run. -/
theorem c10_rna_idx_identity_witness :
    inpC10.rnaToAtac = true ∧
    bmIndices inpC10 = Except.ok (["A1"], [0], [0]) ∧
    ([0] : List Nat) = List.range (["A1"] : List String).length :=
  ⟨rfl, rfl, c10_rna_idx_identity inpC10 ["A1"] [0] [0] rfl rfl⟩
